import Mathlib

/-!
Verification development for the SignalSafe backend API.

The repository contains two variants of the same Express server:
* `API_node.js` — authentication inlined per route (modelled in namespace `APINode`);
* an unnamed main server file — middleware-based (`verificarAutenticacao`,
  `verificarAdmin`; modelled in namespace `Srv`).

The Supabase identity provider is modelled as an oracle (`Env`), the
Postgres tables as an explicit `Store`, and each route handler as a pure
function `... → Store → RouteResult α × Store`.
-/

/-! ## Email validation (`validateEmail`) -/

/-- Characters matched by JavaScript regex class `\s`
(ECMAScript WhiteSpace and LineTerminator code points). -/
def isJsSpace (c : Char) : Bool :=
  let n := c.toNat
  n == 0x09 || n == 0x0A || n == 0x0B || n == 0x0C || n == 0x0D ||
  n == 0x20 || n == 0xA0 || n == 0x1680 || (0x2000 ≤ n && n ≤ 0x200A) ||
  n == 0x2028 || n == 0x2029 || n == 0x202F || n == 0x205F ||
  n == 0x3000 || n == 0xFEFF

/-- Character class `[^\s@]` of the e-mail regex. -/
def charOk (c : Char) : Bool :=
  !(isJsSpace c) && !(c == '@')

/-- Matcher for the regex fragment `[^\s@]+$`. -/
def plusEnd (l : List Char) : Bool :=
  !l.isEmpty && l.all charOk

/-- Matcher for the regex fragment `[^\s@]*\.[^\s@]+$`
(either the dot is matched now, or one more class character is consumed). -/
def segStar : List Char → Bool
  | [] => false
  | c :: rest => (c == '.' && plusEnd rest) || (charOk c && segStar rest)

/-- Matcher for the regex fragment `[^\s@]+\.[^\s@]+$`. -/
def segPlus : List Char → Bool
  | [] => false
  | c :: rest => charOk c && segStar rest

/-- Matcher for the regex fragment `[^\s@]*@[^\s@]+\.[^\s@]+$`. -/
def atStar : List Char → Bool
  | [] => false
  | c :: rest => (c == '@' && segPlus rest) || (charOk c && atStar rest)

/-- `const validateEmail = (email) => /^[^\s@]+@[^\s@]+\.[^\s@]+$/.test(email);`
(identical line in both source files). -/
def validateEmail (s : String) : Bool :=
  match s.toList with
  | [] => false
  | c :: rest => charOk c && atStar rest

/-- The e-mail acceptance condition exactly as the claim words it:
exactly one `@`, at least one non-whitespace character before the `@`
and after it, and at least one `.` in the segment after the `@`. -/
def emailCondClaimed (s : String) : Bool :=
  (s.toList.count '@' == 1) &&
  (s.toList.takeWhile (fun c => !(c == '@'))).any (fun c => !(isJsSpace c)) &&
  ((s.toList.dropWhile (fun c => !(c == '@'))).tail).any (fun c => !(isJsSpace c)) &&
  ((s.toList.dropWhile (fun c => !(c == '@'))).tail).contains '.'

/-- The e-mail acceptance condition the regex actually implements:
exactly one `@`, no whitespace anywhere, at least one character before
the `@`, and a `.` after the `@` that is neither the first character
after the `@` nor the last character of the string. -/
def emailCondActual (s : String) : Bool :=
  (s.toList.count '@' == 1) &&
  s.toList.all (fun c => !(isJsSpace c)) &&
  !(s.toList.takeWhile (fun c => !(c == '@'))).isEmpty &&
  ((s.toList.dropWhile (fun c => !(c == '@'))).tail.tail.dropLast.any
    (fun c => c == '.'))

/-! ### Characterization of the matcher -/

theorem plusEnd_iff (l : List Char) :
    plusEnd l = true ↔ l ≠ [] ∧ ∀ c ∈ l, charOk c = true := by
  simp [plusEnd, List.isEmpty_iff, List.all_eq_true]

theorem segStar_iff (l : List Char) :
    segStar l = true ↔
      ∃ B C, l = B ++ '.' :: C ∧ (∀ c ∈ B, charOk c = true) ∧
        C ≠ [] ∧ (∀ c ∈ C, charOk c = true) := by
  induction l with
  | nil =>
    simp [segStar]
  | cons c rest ih =>
    simp only [segStar, Bool.or_eq_true, Bool.and_eq_true, beq_iff_eq, ih, plusEnd_iff]
    constructor
    · rintro (⟨rfl, hne, hall⟩ | ⟨hok, B, C, rfl, hB, hC, hCall⟩)
      · exact ⟨[], rest, rfl, by simp, hne, hall⟩
      · exact ⟨c :: B, C, rfl, by simpa using And.intro hok hB, hC, hCall⟩
    · rintro ⟨B, C, hsplit, hB, hC, hCall⟩
      cases B with
      | nil =>
        simp only [List.nil_append, List.cons.injEq] at hsplit
        exact Or.inl ⟨hsplit.1, by rw [hsplit.2]; exact ⟨hC, hCall⟩⟩
      | cons b B =>
        simp only [List.cons_append, List.cons.injEq] at hsplit
        refine Or.inr ⟨?_, B, C, hsplit.2, ?_, hC, hCall⟩
        · rw [hsplit.1]; exact hB b (by simp)
        · exact fun x hx => hB x (by simp [hx])

theorem segPlus_iff (l : List Char) :
    segPlus l = true ↔
      ∃ B C, l = B ++ '.' :: C ∧ B ≠ [] ∧ C ≠ [] ∧
        (∀ c ∈ B, charOk c = true) ∧ (∀ c ∈ C, charOk c = true) := by
  cases l with
  | nil => simp [segPlus]
  | cons c rest =>
    simp only [segPlus, Bool.and_eq_true, segStar_iff]
    constructor
    · rintro ⟨hok, B, C, rfl, hB, hC, hCall⟩
      refine ⟨c :: B, C, rfl, by simp, hC, ?_, hCall⟩
      intro x hx
      rcases List.mem_cons.mp hx with rfl | hx
      · exact hok
      · exact hB x hx
    · rintro ⟨B, C, hsplit, hBne, hC, hB, hCall⟩
      cases B with
      | nil => exact absurd rfl hBne
      | cons b B =>
        simp only [List.cons_append, List.cons.injEq] at hsplit
        obtain ⟨hcb, hrest⟩ := hsplit
        subst hrest
        refine ⟨hcb ▸ hB b (by simp), B, C, rfl, ?_, hC, hCall⟩
        exact fun x hx => hB x (by simp [hx])

theorem atStar_iff (l : List Char) :
    atStar l = true ↔
      ∃ A T, l = A ++ '@' :: T ∧ (∀ c ∈ A, charOk c = true) ∧ segPlus T = true := by
  induction l with
  | nil => simp [atStar]
  | cons c rest ih =>
    simp only [atStar, Bool.or_eq_true, Bool.and_eq_true, beq_iff_eq, ih]
    constructor
    · rintro (⟨rfl, hT⟩ | ⟨hok, A, T, rfl, hA, hT⟩)
      · exact ⟨[], rest, rfl, by simp, hT⟩
      · exact ⟨c :: A, T, rfl, by simpa using And.intro hok hA, hT⟩
    · rintro ⟨A, T, hsplit, hA, hT⟩
      cases A with
      | nil =>
        simp only [List.nil_append, List.cons.injEq] at hsplit
        exact Or.inl ⟨hsplit.1, hsplit.2 ▸ hT⟩
      | cons a A =>
        simp only [List.cons_append, List.cons.injEq] at hsplit
        refine Or.inr ⟨hsplit.1 ▸ hA a (by simp), A, T, hsplit.2, ?_, hT⟩
        exact fun x hx => hA x (by simp [hx])

theorem validateEmail_iff_split (s : String) :
    validateEmail s = true ↔
      ∃ A T, s.toList = A ++ '@' :: T ∧ A ≠ [] ∧
        (∀ c ∈ A, charOk c = true) ∧ segPlus T = true := by
  unfold validateEmail
  cases hl : s.toList with
  | nil =>
    simp
  | cons c rest =>
    simp only [Bool.and_eq_true, atStar_iff]
    constructor
    · rintro ⟨hok, A, T, hsplit, hA, hT⟩
      refine ⟨c :: A, T, by rw [hsplit, List.cons_append], by simp, ?_, hT⟩
      intro x hx
      rcases List.mem_cons.mp hx with rfl | hx
      · exact hok
      · exact hA x hx
    · rintro ⟨A, T, hsplit, hAne, hA, hT⟩
      cases A with
      | nil => exact absurd rfl hAne
      | cons a A =>
        simp only [List.cons_append, List.cons.injEq] at hsplit
        obtain ⟨hca, hrest⟩ := hsplit
        subst hrest
        exact ⟨hca ▸ hA a (by simp), A, T, rfl,
          fun x hx => hA x (by simp [hx]), hT⟩

/-! ### Bridge lemmas between the split form and the segment form -/

theorem takeWhile_all_append {p : Char → Bool} (x : Char) (T : List Char)
    (hx : p x = false) :
    ∀ A : List Char, (∀ a ∈ A, p a = true) →
      (A ++ x :: T).takeWhile p = A ∧ (A ++ x :: T).dropWhile p = x :: T := by
  intro A
  induction A with
  | nil => intro _; simp [List.takeWhile, List.dropWhile, hx]
  | cons a A ih =>
    intro hA
    have ha : p a = true := hA a (by simp)
    have hrest : ∀ b ∈ A, p b = true := fun b hb => hA b (by simp [hb])
    obtain ⟨ht, hd⟩ := ih hrest
    constructor
    · simp [List.takeWhile, ha, ht]
    · simp [List.dropWhile, ha, hd]

theorem count_one_split {l : List Char} (h : l.count '@' = 1) :
    l = l.takeWhile (fun c => !(c == '@')) ++
        '@' :: (l.dropWhile (fun c => !(c == '@'))).tail ∧
      '@' ∉ l.takeWhile (fun c => !(c == '@')) ∧
      '@' ∉ (l.dropWhile (fun c => !(c == '@'))).tail := by
  induction l with
  | nil => simp at h
  | cons c rest ih =>
    by_cases hc : c = '@'
    · subst hc
      have hz : rest.count '@' = 0 := by
        have := h
        rw [List.count_cons_self] at this
        omega
      have hnot : '@' ∉ rest := List.count_eq_zero.mp hz
      simp [List.takeWhile, List.dropWhile, hnot]
    · have hcount : rest.count '@' = 1 := by
        rwa [List.count_cons, if_neg (by simpa using hc), Nat.add_zero] at h
      obtain ⟨h1, h2, h3⟩ := ih hcount
      have hpc : (!(c == '@')) = true := by simp [hc]
      refine ⟨?_, ?_, ?_⟩
      · conv_lhs => rw [show c :: rest =
          c :: (rest.takeWhile (fun c => !(c == '@')) ++
            '@' :: (rest.dropWhile (fun c => !(c == '@'))).tail) from by rw [← h1]]
        simp [List.takeWhile, List.dropWhile, hpc]
      · simp [List.takeWhile, hpc]
        exact ⟨fun hh => hc hh.symm, h2⟩
      · simpa [List.dropWhile, hpc] using h3

theorem mem_dropLast_split {m : List Char} (h : '.' ∈ m.dropLast) :
    ∃ X Y : List Char, m = X ++ '.' :: Y ∧ Y ≠ [] := by
  induction m with
  | nil => simp at h
  | cons x m ih =>
    cases m with
    | nil => simp at h
    | cons y m =>
      rw [List.dropLast_cons₂] at h
      rcases List.mem_cons.mp h with hx | h2
      · exact ⟨[], y :: m, by rw [← hx]; simp, by simp⟩
      · obtain ⟨X, Y, hsplit, hY⟩ := ih h2
        exact ⟨x :: X, Y, by rw [List.cons_append, ← hsplit], hY⟩

theorem dot_mem_dropLast {X Y : List Char} (hY : Y ≠ []) :
    '.' ∈ (X ++ '.' :: Y).dropLast := by
  cases Y with
  | nil => exact absurd rfl hY
  | cons y Y =>
    rw [List.dropLast_append_cons, List.dropLast_cons₂]
    simp

theorem charOk_ne_at {c : Char} (h : charOk c = true) : c ≠ '@' := by
  simp only [charOk, Bool.and_eq_true, Bool.not_eq_true'] at h
  simpa using h.2

theorem charOk_not_space {c : Char} (h : charOk c = true) : isJsSpace c = false := by
  simp only [charOk, Bool.and_eq_true, Bool.not_eq_true'] at h
  exact h.1

theorem charOk_of {c : Char} (hs : isJsSpace c = false) (ha : c ≠ '@') :
    charOk c = true := by
  simp [charOk, hs, ha]

theorem cond_split (l : List Char)
    (hcount : l.count '@' = 1)
    (hspace : ∀ c ∈ l, isJsSpace c = false)
    (htne : l.takeWhile (fun c => !(c == '@')) ≠ [])
    (hdot : '.' ∈ ((l.dropWhile (fun c => !(c == '@'))).tail.tail.dropLast)) :
    ∃ A T, l = A ++ '@' :: T ∧ A ≠ [] ∧
      (∀ c ∈ A, charOk c = true) ∧ segPlus T = true := by
  obtain ⟨hsplit, hAat, hTat⟩ := count_one_split hcount
  refine ⟨l.takeWhile (fun c => !(c == '@')),
    (l.dropWhile (fun c => !(c == '@'))).tail, hsplit, htne, ?_, ?_⟩
  · intro c hc
    refine charOk_of (hspace c ?_) ?_
    · rw [hsplit]; exact List.mem_append.mpr (Or.inl hc)
    · rintro rfl; exact hAat hc
  · set T := (l.dropWhile (fun c => !(c == '@'))).tail with hTdef
    have hmemT : ∀ c ∈ T, charOk c = true := by
      intro c hc
      refine charOk_of (hspace c ?_) ?_
      · rw [hsplit]
        exact List.mem_append.mpr (Or.inr (List.mem_cons.mpr (Or.inr hc)))
      · rintro rfl; exact hTat hc
    cases hTcase : T with
    | nil => rw [hTcase] at hdot; simp at hdot
    | cons t0 T2 =>
      rw [hTcase] at hdot
      simp only [List.tail_cons] at hdot
      obtain ⟨X, Y, hXY, hYne⟩ := mem_dropLast_split hdot
      rw [segPlus_iff]
      refine ⟨t0 :: X, Y, by rw [hXY, List.cons_append], by simp, hYne, ?_, ?_⟩
      · intro c hc
        apply hmemT
        rw [hTcase, hXY]
        rcases List.mem_cons.mp hc with rfl | hc
        · simp
        · simp [hc]
      · intro c hc
        apply hmemT
        rw [hTcase, hXY]
        simp [hc]

/-- The source regex accepts exactly the strings described by `emailCondActual`. -/
theorem validateEmail_iff_cond (s : String) :
    validateEmail s = true ↔ emailCondActual s = true := by
  rw [validateEmail_iff_split]
  constructor
  · rintro ⟨A, T, hsplit, hAne, hA, hT⟩
    obtain ⟨B, C, hTsplit, hBne, hCne, hB, hC⟩ := segPlus_iff T |>.mp hT
    have hTok : ∀ c ∈ T, charOk c = true := by
      intro c hc
      rw [hTsplit] at hc
      rcases List.mem_append.mp hc with hc | hc
      · exact hB c hc
      · rcases List.mem_cons.mp hc with rfl | hc
        · decide
        · exact hC c hc
    have hAat : '@' ∉ A := fun hmem => charOk_ne_at (hA '@' hmem) rfl
    have hTat : '@' ∉ T := fun hmem => charOk_ne_at (hTok '@' hmem) rfl
    have htw := takeWhile_all_append (p := fun c => !(c == '@')) '@' T (by simp)
      A (fun a ha => by simp [charOk_ne_at (hA a ha)])
    have hcount : s.toList.count '@' = 1 := by
      rw [hsplit]
      simp [List.count_append, List.count_eq_zero.mpr hAat, List.count_eq_zero.mpr hTat]
    have hspace : ∀ c ∈ s.toList, isJsSpace c = false := by
      intro c hc
      rw [hsplit] at hc
      rcases List.mem_append.mp hc with hc | hc
      · exact charOk_not_space (hA c hc)
      · rcases List.mem_cons.mp hc with rfl | hc
        · decide
        · exact charOk_not_space (hTok c hc)
    have htne : s.toList.takeWhile (fun c => !(c == '@')) ≠ [] := by
      rw [hsplit, htw.1]; exact hAne
    have hdot : '.' ∈ (s.toList.dropWhile
        (fun c => !(c == '@'))).tail.tail.dropLast := by
      rw [hsplit, htw.2]
      cases B with
      | nil => exact absurd rfl hBne
      | cons b B2 =>
        simp only [List.tail_cons]
        rw [hTsplit]
        simp only [List.cons_append, List.tail_cons]
        exact dot_mem_dropLast hCne
    unfold emailCondActual
    simp only [Bool.and_eq_true]
    refine ⟨⟨⟨by simpa using hcount, ?_⟩, ?_⟩, ?_⟩
    · rw [List.all_eq_true]
      intro c hc
      simpa using hspace c hc
    · simpa [List.isEmpty_iff] using htne
    · rw [List.any_eq_true]
      exact ⟨'.', hdot, by simp⟩
  · intro h
    unfold emailCondActual at h
    simp only [Bool.and_eq_true] at h
    obtain ⟨⟨⟨h1, h2⟩, h3⟩, h4⟩ := h
    have hdot : '.' ∈ (s.toList.dropWhile
        (fun c => !(c == '@'))).tail.tail.dropLast := by
      rw [List.any_eq_true] at h4
      obtain ⟨c, hc, hceq⟩ := h4
      rw [beq_iff_eq] at hceq
      rwa [hceq] at hc
    refine cond_split s.toList (by simpa using h1) ?_ ?_ hdot
    · intro c hc
      simpa using List.all_eq_true.mp h2 c hc
    · simpa [List.isEmpty_iff] using h3

/-! ## Data model

Rows of the three Supabase tables, the table store, the identity-provider
oracle, and the HTTP result type. -/

/-- Identity resolved by `supabase.auth.getUser(token)`. -/
structure AuthUser where
  id : String
  email : String
deriving DecidableEq

/-- Row of the `users` table. -/
structure UserRow where
  id : String
  email : String
  user_name : String
  is_admin : Bool
deriving DecidableEq

/-- Row of the `estabelecimento` table. -/
structure EstabRow where
  id : Nat
  user_id : String
  nome : String
  cep : String
deriving DecidableEq

/-- Row of the `jammers` table. -/
structure JammerRow where
  id : Nat
  id_estabelecimento : Nat
  estado_jammer : Bool
deriving DecidableEq

/-- The relational store (the three tables the routes touch). -/
structure Store where
  users : List UserRow
  estabelecimentos : List EstabRow
  jammers : List JammerRow
deriving DecidableEq

/-- Outcome of a route: `res.status(n).json({...})` with either a success
payload or an error message. -/
inductive RouteResult (α : Type) where
  | ok (status : Nat) (val : α)
  | err (status : Nat) (msg : String)
deriving DecidableEq

/-- HTTP status of a route result. -/
def RouteResult.status : RouteResult α → Nat
  | .ok s _ => s
  | .err s _ => s

/-- Identity-provider (Supabase auth) oracle: token verification, account
creation, and password update. -/
structure Env where
  getUser : String → Option AuthUser
  signUp : String → String → Except String (Option AuthUser)
  updateUser : String → String → Bool

/-- PostgREST error message produced by `.single()` when the result set
does not contain exactly one row (error code PGRST116). -/
def pgrst116 : String := "JSON object requested, multiple (or no) rows returned"

/-- `.select(...).eq(...).single()`: succeeds only on exactly one matching row. -/
def selectSingle (rows : List α) (p : α → Bool) : Option α :=
  match rows.filter p with
  | [r] => some r
  | _ => none

/-- JavaScript `String.prototype.replace` with a string pattern: replace the
leftmost occurrence of `pat` with the empty string. -/
def replaceFirst (pat : List Char) : List Char → List Char
  | [] => []
  | c :: rest =>
    if pat.isPrefixOf (c :: rest) then (c :: rest).drop pat.length
    else c :: replaceFirst pat rest

/-- `header.replace('Bearer ', '')`. -/
def stripBearer (h : String) : String :=
  String.mk (replaceFirst "Bearer ".toList h.toList)

/-- Insertion step of the stable sort modelling `.order(col, ascending)`. -/
def insertBy (le : α → α → Bool) (a : α) : List α → List α
  | [] => [a]
  | b :: bs => if le a b then a :: b :: bs else b :: insertBy le a bs

/-- Stable sort modelling PostgREST `.order(col, { ascending: true })`. -/
def sortBy (le : α → α → Bool) : List α → List α
  | [] => []
  | a :: as => insertBy le a (sortBy le as)

/-! ## Route handlers shared verbatim by both source files -/

/-- POST /signup (identical in both files). `maybeSingle` yields a row only
when exactly one row matches (with several matches it errors and its `data`
is null, which the source does not distinguish from no match). -/
def signup (env : Env) (email password : Option String) (store : Store) :
    RouteResult String × Store :=
  match email, password with
  | some e, some p =>
    if e = "" ∨ p = "" then (.err 400 "E-mail e senha são obrigatórios.", store)
    else if !validateEmail e then (.err 400 "E-mail inválido.", store)
    else if p.length < 6 then
      (.err 400 "A senha deve ter no mínimo 6 caracteres.", store)
    else
      match store.users.filter (fun r => r.email == e) with
      | [_] => (.err 400 "E-mail já está cadastrado.", store)
      | _ =>
        match env.signUp e p with
        | .error m => (.err 400 m, store)
        | .ok none => (.err 400 "Erro ao criar usuário.", store)
        | .ok (some au) =>
          (.ok 201 au.id,
           { store with users := store.users ++
              [{ id := au.id, email := e, user_name := e, is_admin := false }] })
  | _, _ => (.err 400 "E-mail e senha são obrigatórios.", store)

/-- POST /forgot-password (identical in both files); the reset-link dispatch
to the identity provider is fire-and-forget and its result is ignored. -/
def forgotPassword (email : Option String) (store : Store) :
    RouteResult Unit × Store :=
  match email with
  | some e =>
    if e = "" then (.err 400 "O e-mail é obrigatório.", store)
    else if !validateEmail e then (.err 400 "E-mail inválido.", store)
    else (.ok 200 (), store)
  | none => (.err 400 "O e-mail é obrigatório.", store)

/-- POST /reset-password (identical in both files). `setSession`'s result is
ignored by the source; an `updateUser` failure maps to 400. -/
def resetPassword (env : Env) (access_token new_password : Option String)
    (store : Store) : RouteResult Unit × Store :=
  match access_token, new_password with
  | some t, some np =>
    if t = "" ∨ np = "" then
      (.err 400 "Token e nova senha são obrigatórios.", store)
    else if np.length < 6 then
      (.err 400 "A senha deve ter no mínimo 6 caracteres.", store)
    else if env.updateUser t np then (.ok 200 (), store)
    else (.err 400 "Erro ao atualizar senha.", store)
  | _, _ => (.err 400 "Token e nova senha são obrigatórios.", store)

/-- Core of PATCH /jammer/:jammerId shared verbatim by both files (after the
authentication and `estado_jammer` presence checks): select the jammer with
the embedded `estabelecimento ( user_id )` join, 404 when `.single()` fails,
403 when the joined owner differs from the principal, otherwise update.
A null embedded join (`jammerData.estabelecimento`) makes the field access
throw, which the route's catch block reports as 500. -/
def patchJammerOwn (jammerId : Nat) (estado : Bool) (u : AuthUser)
    (store : Store) : RouteResult JammerRow × Store :=
  match store.jammers.filter (fun j => j.id == jammerId) with
  | [j] =>
    match store.estabelecimentos.find? (fun e => e.id == j.id_estabelecimento) with
    | none => (.err 500 "Erro interno do servidor.", store)
    | some e =>
      if e.user_id ≠ u.id then
        (.err 403 "Você não tem permissão para alterar este jammer.", store)
      else
        let newJammers : List JammerRow :=
          store.jammers.map (fun j2 =>
            if j2.id == jammerId then { j2 with estado_jammer := estado } else j2)
        match (store.jammers.filter (fun j2 => j2.id == jammerId)).map
            (fun j2 => { j2 with estado_jammer := estado }) with
        | [jr] => (.ok 200 jr, { store with jammers := newJammers })
        | _ => (.err 400 pgrst116, store)
  | _ => (.err 404 "Jammer não encontrado.", store)

/-- DELETE /admin/estabelecimento/:id handler body (identical in both files):
first delete every jammer of the establishment (result ignored), then delete
the establishment with `.select().single()`; a `.single()` mismatch is a
PostgREST error response, which rolls that one statement back. -/
def deleteEstabelecimento (id : Nat) (store : Store) :
    RouteResult EstabRow × Store :=
  let afterJammers : Store :=
    { store with jammers :=
        store.jammers.filter (fun j => !(j.id_estabelecimento == id)) }
  match afterJammers.estabelecimentos.filter (fun e => e.id == id) with
  | [e] =>
    (.ok 200 e,
     { afterJammers with estabelecimentos :=
        afterJammers.estabelecimentos.filter (fun e2 => !(e2.id == id)) })
  | _ => (.err 400 pgrst116, afterJammers)

/-! ## Middleware-based server file (unnamed main file) -/

namespace Srv

/-- `verificarAutenticacao` middleware: missing or empty header is rejected
before any identity-provider call; otherwise the stripped token is resolved. -/
def verificarAutenticacao (env : Env) (authHeader : Option String) :
    Except (Nat × String) AuthUser :=
  match authHeader with
  | none => .error (401, "Token não fornecido.")
  | some h =>
    if h = "" then .error (401, "Token não fornecido.")
    else
      match env.getUser (stripBearer h) with
      | none => .error (401, "Token inválido ou sessão expirada.")
      | some u => .ok u

/-- Express route composition `app.METHOD(path, verificarAutenticacao, handler)`:
a middleware rejection answers the request and the handler never runs. -/
def authRoute {α : Type} (env : Env)
    (handler : AuthUser → Store → RouteResult α × Store)
    (authHeader : Option String) (store : Store) : RouteResult α × Store :=
  match verificarAutenticacao env authHeader with
  | .error e => (.err e.1 e.2, store)
  | .ok u => handler u store

/-- `verificarAdmin` middleware: token resolution, then the `is_admin` flag of
the principal's user record; a record-fetch error is 500, a missing flag 403.
(The source's extra `!userData` test after a successful `.single()` cannot
fire, since a successful single fetch returns a row.) -/
def verificarAdmin (env : Env) (authHeader : Option String) (store : Store) :
    Except (Nat × String) AuthUser :=
  match authHeader with
  | none => .error (401, "Token não fornecido.")
  | some h =>
    if h = "" then .error (401, "Token não fornecido.")
    else
      match env.getUser (stripBearer h) with
      | none => .error (401, "Token inválido.")
      | some u =>
        match selectSingle store.users (fun r => r.id == u.id) with
        | none => .error (500, "Erro ao verificar permissões.")
        | some r =>
          if !r.is_admin then
            .error (403, "Acesso negado. Apenas administradores.")
          else .ok u

/-- Express route composition `app.METHOD(path, verificarAdmin, handler)`.
The admin handlers never read `req.user`, so the handler takes no principal. -/
def adminRoute {α : Type} (env : Env) (handler : Store → RouteResult α × Store)
    (authHeader : Option String) (store : Store) : RouteResult α × Store :=
  match verificarAdmin env authHeader store with
  | .error e => (.err e.1 e.2, store)
  | .ok _ => handler store

/-- GET /user/:userId/estabelecimentos handler (runs after
`verificarAutenticacao`): self check, then the user's establishments
ordered by name. -/
def userEstabelecimentos (userId : String) (u : AuthUser) (store : Store) :
    RouteResult (List EstabRow) × Store :=
  if u.id ≠ userId then
    (.err 403 "Você não tem permissão para acessar estes dados.", store)
  else
    (.ok 200 (sortBy (fun a b => decide (a.nome ≤ b.nome))
      (store.estabelecimentos.filter (fun e => e.user_id == userId))), store)

/-- GET /user/:userId/estabelecimentos-completo handler (runs after
`verificarAutenticacao`): self check, then one embedded-join select; the
embedded jammer lists carry no ordering clause. -/
def estabelecimentosCompleto (userId : String) (u : AuthUser) (store : Store) :
    RouteResult (List (EstabRow × List JammerRow)) × Store :=
  if u.id ≠ userId then
    (.err 403 "Você não tem permissão para acessar estes dados.", store)
  else
    (.ok 200 ((sortBy (fun a b => decide (a.nome ≤ b.nome))
      (store.estabelecimentos.filter (fun e => e.user_id == userId))).map
      (fun e => (e, store.jammers.filter (fun j => j.id_estabelecimento == e.id)))),
     store)

/-- GET /estabelecimento/:estabelecimentoId/jammers handler (runs after
`verificarAutenticacao`): owner lookup with 404 before the ownership check. -/
def estabelecimentoJammers (estabelecimentoId : Nat) (u : AuthUser)
    (store : Store) : RouteResult (List JammerRow) × Store :=
  match selectSingle store.estabelecimentos
      (fun e => e.id == estabelecimentoId) with
  | none => (.err 404 "Estabelecimento não encontrado.", store)
  | some e =>
    if e.user_id ≠ u.id then
      (.err 403 "Você não tem permissão para acessar estes dados.", store)
    else
      (.ok 200 (sortBy (fun a b => decide (a.id ≤ b.id))
        (store.jammers.filter
          (fun j => j.id_estabelecimento == estabelecimentoId))), store)

/-- PATCH /jammer/:jammerId handler (runs after `verificarAutenticacao`). -/
def patchJammer (jammerId : Nat) (estado : Option Bool) (u : AuthUser)
    (store : Store) : RouteResult JammerRow × Store :=
  match estado with
  | none => (.err 400 "estado_jammer é obrigatório.", store)
  | some b => patchJammerOwn jammerId b u store

/-- Full GET /user/:userId/estabelecimentos route. -/
def userEstabelecimentosRoute (env : Env) (authHeader : Option String)
    (userId : String) (store : Store) : RouteResult (List EstabRow) × Store :=
  authRoute env (userEstabelecimentos userId) authHeader store

/-- Full GET /user/:userId/estabelecimentos-completo route. -/
def estabelecimentosCompletoRoute (env : Env) (authHeader : Option String)
    (userId : String) (store : Store) :
    RouteResult (List (EstabRow × List JammerRow)) × Store :=
  authRoute env (estabelecimentosCompleto userId) authHeader store

/-- Full GET /estabelecimento/:estabelecimentoId/jammers route. -/
def estabelecimentoJammersRoute (env : Env) (authHeader : Option String)
    (estabelecimentoId : Nat) (store : Store) :
    RouteResult (List JammerRow) × Store :=
  authRoute env (estabelecimentoJammers estabelecimentoId) authHeader store

/-- Full PATCH /jammer/:jammerId route. -/
def patchJammerRoute (env : Env) (authHeader : Option String) (jammerId : Nat)
    (estado : Option Bool) (store : Store) : RouteResult JammerRow × Store :=
  authRoute env (patchJammer jammerId estado) authHeader store

/-- Full DELETE /admin/estabelecimento/:id route. -/
def adminDeleteEstabelecimentoRoute (env : Env) (authHeader : Option String)
    (id : Nat) (store : Store) : RouteResult EstabRow × Store :=
  adminRoute env (deleteEstabelecimento id) authHeader store

end Srv

/-! ## `API_node.js` (inline authentication per route) -/

namespace APINode

/-- Inline token resolution used by API_node.js routes:
`req.headers.authorization?.replace('Bearer ', '')` followed by `if (!token)`,
then `supabase.auth.getUser(token)`. -/
def resolveToken (env : Env) (authHeader : Option String) :
    Except (Nat × String) AuthUser :=
  match authHeader with
  | none => .error (401, "Token não fornecido.")
  | some h =>
    if stripBearer h = "" then .error (401, "Token não fornecido.")
    else
      match env.getUser (stripBearer h) with
      | none => .error (401, "Token inválido.")
      | some u => .ok u

/-- GET /user/:userId/estabelecimentos (API_node.js): inline token check,
self check, then the data. -/
def userEstabelecimentos (env : Env) (authHeader : Option String)
    (userId : String) (store : Store) : RouteResult (List EstabRow) × Store :=
  match resolveToken env authHeader with
  | .error e => (.err e.1 e.2, store)
  | .ok u =>
    if u.id ≠ userId then
      (.err 403 "Você não tem permissão para acessar estes dados.", store)
    else
      (.ok 200 (sortBy (fun a b => decide (a.nome ≤ b.nome))
        (store.estabelecimentos.filter (fun e => e.user_id == userId))), store)

/-- GET /user/:userId/estabelecimentos-completo (API_node.js): the handler
reads the path parameter and returns the data directly — it performs no token
resolution and no self check, so it takes neither an `Env` nor a principal. -/
def estabelecimentosCompleto (userId : String) (store : Store) :
    RouteResult (List (EstabRow × List JammerRow)) × Store :=
  (.ok 200 ((sortBy (fun a b => decide (a.nome ≤ b.nome))
    (store.estabelecimentos.filter (fun e => e.user_id == userId))).map
    (fun e => (e, sortBy (fun a b => decide (a.id ≤ b.id))
      (store.jammers.filter (fun j => j.id_estabelecimento == e.id))))), store)

/-- GET /estabelecimento/:estabelecimentoId/jammers (API_node.js): returns the
matching jammers directly — no authentication, no existence check, no
ownership check. -/
def estabelecimentoJammers (estabelecimentoId : Nat) (store : Store) :
    RouteResult (List JammerRow) × Store :=
  (.ok 200 (sortBy (fun a b => decide (a.id ≤ b.id))
    (store.jammers.filter
      (fun j => j.id_estabelecimento == estabelecimentoId))), store)

/-- PATCH /jammer/:jammerId (API_node.js): the `estado_jammer` presence check
runs before the inline token check; then the shared ownership/update core. -/
def patchJammer (env : Env) (authHeader : Option String) (jammerId : Nat)
    (estado : Option Bool) (store : Store) : RouteResult JammerRow × Store :=
  match estado with
  | none => (.err 400 "estado_jammer é obrigatório.", store)
  | some b =>
    match resolveToken env authHeader with
    | .error e => (.err e.1 e.2, store)
    | .ok u => patchJammerOwn jammerId b u store

/-- `verificarAdmin` (API_node.js): a user-record fetch error and a
missing/false admin flag share the single 403 branch
(`if (userError || !userData?.is_admin)`). -/
def verificarAdmin (env : Env) (authHeader : Option String) (store : Store) :
    Except (Nat × String) AuthUser :=
  match authHeader with
  | none => .error (401, "Token não fornecido.")
  | some h =>
    if stripBearer h = "" then .error (401, "Token não fornecido.")
    else
      match env.getUser (stripBearer h) with
      | none => .error (401, "Token inválido.")
      | some u =>
        match selectSingle store.users (fun r => r.id == u.id) with
        | none => .error (403, "Acesso negado. Apenas administradores.")
        | some r =>
          if !r.is_admin then
            .error (403, "Acesso negado. Apenas administradores.")
          else .ok u

/-- Express route composition `app.METHOD(path, verificarAdmin, handler)`.
The admin handlers never read `req.user`, so the handler takes no principal. -/
def adminRoute {α : Type} (env : Env) (handler : Store → RouteResult α × Store)
    (authHeader : Option String) (store : Store) : RouteResult α × Store :=
  match verificarAdmin env authHeader store with
  | .error e => (.err e.1 e.2, store)
  | .ok _ => handler store

/-- Full DELETE /admin/estabelecimento/:id route. -/
def adminDeleteEstabelecimentoRoute (env : Env) (authHeader : Option String)
    (id : Nat) (store : Store) : RouteResult EstabRow × Store :=
  adminRoute env (deleteEstabelecimento id) authHeader store

end APINode

/-! ## Concrete fixtures used by witnesses and counterexamples -/

/-- Resolved identity of tenant u1. -/
def authU1 : AuthUser := ⟨"u1", "ana@mail.com"⟩

/-- Resolved identity of tenant u2 (admin-flagged in `store1`). -/
def authU2 : AuthUser := ⟨"u2", "bia@mail.com"⟩

/-- Resolved identity u3 with no `users` row. -/
def authU3 : AuthUser := ⟨"u3", "caio@mail.com"⟩

/-- users row of u1 (not admin). -/
def rowU1 : UserRow := ⟨"u1", "ana@mail.com", "ana@mail.com", false⟩

/-- users row of u2 (admin). -/
def rowU2 : UserRow := ⟨"u2", "bia@mail.com", "bia@mail.com", true⟩

/-- Establishment 1, owned by u1. -/
def estab1 : EstabRow := ⟨1, "u1", "Bar Central", "01000"⟩

/-- Establishment 7, owned by u1. -/
def estab7 : EstabRow := ⟨7, "u1", "Filial Sete", "07000"⟩

/-- Jammer 1 of establishment 1. -/
def jam1 : JammerRow := ⟨1, 1, false⟩

/-- Jammer 2 of establishment 1. -/
def jam2 : JammerRow := ⟨2, 1, true⟩

/-- Jammer 71 of establishment 7. -/
def jam71 : JammerRow := ⟨71, 7, false⟩

/-- Jammer 72 of establishment 7. -/
def jam72 : JammerRow := ⟨72, 7, true⟩

/-- Identity-provider oracle resolving three fixed tokens. -/
def env0 : Env :=
  ⟨fun t =>
     if t = "tok1" then some authU1
     else if t = "tok2" then some authU2
     else if t = "tok3" then some authU3
     else none,
   fun _ _ => Except.ok none,
   fun _ _ => false⟩

/-- Store with two users, establishment 1 of u1 and its two jammers. -/
def store1 : Store := ⟨[rowU1, rowU2], [estab1], [jam1, jam2]⟩

/-- Store that additionally holds establishment 7 of u1 and its two jammers. -/
def store7 : Store := ⟨[rowU1, rowU2], [estab1, estab7], [jam1, jam71, jam72]⟩

/-! ## Claims -/

/-- C1: the middleware server answers Forbidden on both self-path routes for a
mismatched principal — also when the path userId does not exist — but in
`API_node.js` the GET /user/:userId/estabelecimentos-completo handler performs
no authentication and no self check: evaluated at the failing input (principal
u2, path userId u1), it answers 200 with u1's establishments and jammers. -/
theorem c1_selfpath_forbidden_apinode_completo_leak :
    Srv.userEstabelecimentosRoute env0 (some "Bearer tok2") "u1" store1
      = (.err 403 "Você não tem permissão para acessar estes dados.", store1) ∧
    Srv.estabelecimentosCompletoRoute env0 (some "Bearer tok2") "u1" store1
      = (.err 403 "Você não tem permissão para acessar estes dados.", store1) ∧
    Srv.estabelecimentosCompletoRoute env0 (some "Bearer tok2") "ghost" store1
      = (.err 403 "Você não tem permissão para acessar estes dados.", store1) ∧
    APINode.userEstabelecimentos env0 (some "Bearer tok2") "u1" store1
      = (.err 403 "Você não tem permissão para acessar estes dados.", store1) ∧
    APINode.estabelecimentosCompleto "u1" store1
      = (.ok 200 [(estab1, [jam1, jam2])], store1) :=
  ⟨by decide, by decide, by decide, by decide, by decide⟩

/-- C2: the middleware server checks existence (404) before ownership (403) on
GET /estabelecimento/:id/jammers and returns the jammers only to the owner,
but in `API_node.js` the same route performs no authentication, no existence
check and no ownership check: evaluated at the failing inputs it answers 200
with an empty list for a missing establishment and 200 with the data for any
caller. -/
theorem c2_estab_jammers_ownership_apinode_leak :
    Srv.estabelecimentoJammersRoute env0 (some "Bearer tok2") 99 store1
      = (.err 404 "Estabelecimento não encontrado.", store1) ∧
    Srv.estabelecimentoJammersRoute env0 (some "Bearer tok2") 1 store1
      = (.err 403 "Você não tem permissão para acessar estes dados.", store1) ∧
    Srv.estabelecimentoJammersRoute env0 (some "Bearer tok1") 1 store1
      = (.ok 200 [jam1, jam2], store1) ∧
    APINode.estabelecimentoJammers 99 store1 = (.ok 200 [], store1) ∧
    APINode.estabelecimentoJammers 1 store1 = (.ok 200 [jam1, jam2], store1) :=
  ⟨by decide, by decide, by decide, by decide, by decide⟩

/-- C5 counterexample: a PATCH /jammer/:jammerId request to `API_node.js` that
carries no bearer token and no `estado_jammer` body field is answered 400
(ValidationError), not 401 (Unauthenticated): the body check runs first. -/
theorem c5_counterexample :
    (APINode.patchJammer env0 none 1 none store1).1
      = RouteResult.err 400 "estado_jammer é obrigatório." ∧
    (APINode.patchJammer env0 none 1 none store1).1.status ≠ 401 := by
  decide

/-- C5 (amended): a request without bearer token to any route guarded by
`verificarAutenticacao` or `verificarAdmin` (any handler), or to the inline
checks of `API_node.js`, is answered 401 with no identity-provider call (the
result is the same for every oracle `env`) and no store mutation; the one
exception is API_node's PATCH /jammer/:jammerId with the `estado_jammer`
field absent, which answers 400 — still with no provider call or mutation. -/
theorem c5_no_token_unauthenticated {α : Type} (env : Env)
    (handler : AuthUser → Store → RouteResult α × Store)
    (adminHandler : Store → RouteResult α × Store)
    (store : Store) (userId : String) (jammerId : Nat) (b : Bool) :
    Srv.authRoute env handler none store
      = (.err 401 "Token não fornecido.", store) ∧
    Srv.adminRoute env adminHandler none store
      = (.err 401 "Token não fornecido.", store) ∧
    APINode.adminRoute env adminHandler none store
      = (.err 401 "Token não fornecido.", store) ∧
    APINode.userEstabelecimentos env none userId store
      = (.err 401 "Token não fornecido.", store) ∧
    APINode.patchJammer env none jammerId (some b) store
      = (.err 401 "Token não fornecido.", store) ∧
    APINode.patchJammer env none jammerId none store
      = (.err 400 "estado_jammer é obrigatório.", store) :=
  ⟨rfl, rfl, rfl, rfl, rfl, rfl⟩

/-- C7 counterexample: a sign-up request with a password shorter than six
characters (the empty password) is not answered with the mínimo-6 message —
the presence check fires first. -/
theorem c7_counterexample :
    (signup env0 (some "a@b.com") (some "") store1).1
      = RouteResult.err 400 "E-mail e senha são obrigatórios." ∧
    ("" : String).length < 6 ∧
    "E-mail e senha são obrigatórios." ≠
      "A senha deve ter no mínimo 6 caracteres." := by
  decide

/-- C7 (amended): a sign-up request whose email is present and syntactically
valid and whose password is present but shorter than six characters, and a
password-reset request whose token is present and whose new password is
present but shorter than six characters, are answered with the mínimo-6
ValidationError; the result holds for every oracle `env` (no identity-provider
call is made) and the store is unchanged (nothing is created or modified). -/
theorem c7_password_min_length (env : Env) (e p t np : String) (store : Store)
    (he : e ≠ "") (hve : validateEmail e = true)
    (hp : p ≠ "") (hlen : p.length < 6)
    (ht : t ≠ "") (hnp : np ≠ "") (hnplen : np.length < 6) :
    signup env (some e) (some p) store
      = (.err 400 "A senha deve ter no mínimo 6 caracteres.", store) ∧
    resetPassword env (some t) (some np) store
      = (.err 400 "A senha deve ter no mínimo 6 caracteres.", store) := by
  constructor
  · simp [signup, he, hp, hve, hlen]
  · simp [resetPassword, ht, hnp, hnplen]

/-- C7 witness: the spec's own scenario `email="a@b.com", password="short"`. -/
theorem c7_witness :
    signup env0 (some "a@b.com") (some "short") store1
      = (.err 400 "A senha deve ter no mínimo 6 caracteres.", store1) ∧
    resetPassword env0 (some "tk") (some "short") store1
      = (.err 400 "A senha deve ter no mínimo 6 caracteres.", store1) :=
  c7_password_min_length env0 "a@b.com" "short" "tk" "short" store1
    (by decide) (by decide) (by decide) (by decide)
    (by decide) (by decide) (by decide)

/-- C6 counterexample: the string `"a@b."` satisfies the claimed description
(exactly one `@`, a non-whitespace character before and after it, and a `.`
in the segment after the `@`) yet the source regex rejects it, so the claimed
iff fails. -/
theorem c6_counterexample :
    ¬ (validateEmail "a@b." = true ↔ emailCondClaimed "a@b." = true) := by
  decide

/-- C6 (amended): `validateEmail` accepts exactly the strings with one `@`, no
whitespace anywhere, at least one character before the `@`, and a `.` after
the `@` that is neither directly after the `@` nor last; and the identical
check decides the invalid-email rejection of both the sign-up and the
forgot-password entry points. -/
theorem c6_email_characterization :
    (∀ s : String, validateEmail s = true ↔ emailCondActual s = true) ∧
    (∀ (env : Env) (e p : String) (store : Store),
      e ≠ "" → p ≠ "" → p.length < 6 →
      ((signup env (some e) (some p) store).1
          = RouteResult.err 400 "E-mail inválido." ↔ validateEmail e = false)) ∧
    (∀ (e : String) (store : Store), e ≠ "" →
      ((forgotPassword (some e) store).1
          = RouteResult.err 400 "E-mail inválido." ↔ validateEmail e = false)) := by
  refine ⟨validateEmail_iff_cond, ?_, ?_⟩
  · intro env e p store he hp hlen
    cases hval : validateEmail e with
    | false => simp [signup, he, hp, hval]
    | true => simp [signup, he, hp, hval, hlen]
  · intro e store he
    cases hval : validateEmail e with
    | false => simp [forgotPassword, he, hval]
    | true => simp [forgotPassword, he, hval]

/-- C6 witness: the characterization and both entry points evaluated at
concrete inputs. -/
theorem c6_witness :
    (validateEmail "ana@mail.co" = true ↔ emailCondActual "ana@mail.co" = true) ∧
    ((signup env0 (some "bad") (some "abc") store1).1
        = RouteResult.err 400 "E-mail inválido." ↔ validateEmail "bad" = false) ∧
    ((forgotPassword (some "bad") store1).1
        = RouteResult.err 400 "E-mail inválido." ↔ validateEmail "bad" = false) :=
  ⟨c6_email_characterization.1 "ana@mail.co",
   c6_email_characterization.2.1 env0 "bad" "abc" store1
     (by decide) (by decide) (by decide),
   c6_email_characterization.2.2 "bad" store1 (by decide)⟩

/-- C4: on every `/admin/...` route of either server variant, an authenticated
principal whose user record is not admin-flagged is answered 403 and the
handler never runs (the result and the store are those of the middleware
rejection, for every handler); an admin-flagged principal's request proceeds
to the handler, which receives no principal at all, so no ownership
comparison against the principal can occur. -/
theorem c4_admin_gate {α : Type} (env : Env) (h : String) (u : AuthUser)
    (r : UserRow) (store : Store)
    (hne : h ≠ "") (htne : stripBearer h ≠ "")
    (hget : env.getUser (stripBearer h) = some u)
    (hrow : store.users.filter (fun w => w.id == u.id) = [r]) :
    (r.is_admin = false →
      ∀ handler : Store → RouteResult α × Store,
        Srv.adminRoute env handler (some h) store
          = (.err 403 "Acesso negado. Apenas administradores.", store) ∧
        APINode.adminRoute env handler (some h) store
          = (.err 403 "Acesso negado. Apenas administradores.", store)) ∧
    (r.is_admin = true →
      ∀ handler : Store → RouteResult α × Store,
        Srv.adminRoute env handler (some h) store = handler store ∧
        APINode.adminRoute env handler (some h) store = handler store) := by
  constructor
  · intro hadm handler
    constructor
    · simp [Srv.adminRoute, Srv.verificarAdmin, hne, htne, hget,
        selectSingle, hrow, hadm]
    · simp [APINode.adminRoute, APINode.verificarAdmin, hne, htne, hget,
        selectSingle, hrow, hadm]
  · intro hadm handler
    constructor
    · simp [Srv.adminRoute, Srv.verificarAdmin, hne, htne, hget,
        selectSingle, hrow, hadm]
    · simp [APINode.adminRoute, APINode.verificarAdmin, hne, htne, hget,
        selectSingle, hrow, hadm]

/-- C4 witness: non-admin u1 is rejected by the middleware, admin u2 reaches
the handler, on concrete fixtures. -/
theorem c4_witness :
    Srv.adminRoute env0 (fun s => (RouteResult.ok 200 (0 : Nat), s))
        (some "Bearer tok1") store1
      = (RouteResult.err 403 "Acesso negado. Apenas administradores.", store1) ∧
    APINode.adminRoute env0 (fun s => (RouteResult.ok 200 (0 : Nat), s))
        (some "Bearer tok2") store1
      = (RouteResult.ok 200 (0 : Nat), store1) :=
  ⟨((c4_admin_gate env0 "Bearer tok1" authU1 rowU1 store1 (by decide) (by decide)
      (by decide) (by decide)).1 (by decide)
      (fun s => (RouteResult.ok 200 (0 : Nat), s))).1,
   ((c4_admin_gate env0 "Bearer tok2" authU2 rowU2 store1 (by decide) (by decide)
      (by decide) (by decide)).2 (by decide)
      (fun s => (RouteResult.ok 200 (0 : Nat), s))).2⟩

/-- C3: for an authenticated PATCH /jammer/:jammerId on either server variant,
a jammer id with no row is answered 404 with the store unchanged — whatever
the establishment and user tables hold, so NotFound is decided before any
ownership comparison — and an existing jammer whose transitive owner differs
from a principal that is not admin-flagged is answered 403 with the store
unchanged. -/
theorem c3_patch_jammer_notfound_forbidden (env : Env) (h : String)
    (u : AuthUser) (store : Store) (jammerId : Nat) (b : Bool)
    (hne : h ≠ "") (htne : stripBearer h ≠ "")
    (hget : env.getUser (stripBearer h) = some u) :
    (store.jammers.filter (fun j => j.id == jammerId) = [] →
      Srv.patchJammerRoute env (some h) jammerId (some b) store
        = (.err 404 "Jammer não encontrado.", store) ∧
      APINode.patchJammer env (some h) jammerId (some b) store
        = (.err 404 "Jammer não encontrado.", store)) ∧
    (∀ j e, store.jammers.filter (fun j2 => j2.id == jammerId) = [j] →
      store.estabelecimentos.find? (fun e2 => e2.id == j.id_estabelecimento)
        = some e →
      e.user_id ≠ u.id →
      (∀ w ∈ store.users, w.id = u.id → w.is_admin = false) →
      Srv.patchJammerRoute env (some h) jammerId (some b) store
        = (.err 403 "Você não tem permissão para alterar este jammer.", store) ∧
      APINode.patchJammer env (some h) jammerId (some b) store
        = (.err 403 "Você não tem permissão para alterar este jammer.", store)) := by
  constructor
  · intro hempty
    constructor
    · simp [Srv.patchJammerRoute, Srv.authRoute, Srv.verificarAutenticacao,
        Srv.patchJammer, patchJammerOwn, hne, htne, hget, hempty]
    · simp [APINode.patchJammer, APINode.resolveToken, patchJammerOwn,
        hne, htne, hget, hempty]
  · intro j e hj he hown hadm
    constructor
    · simp [Srv.patchJammerRoute, Srv.authRoute, Srv.verificarAutenticacao,
        Srv.patchJammer, patchJammerOwn, hne, htne, hget, hj, he, hown]
    · simp [APINode.patchJammer, APINode.resolveToken, patchJammerOwn,
        hne, htne, hget, hj, he, hown]

/-- C3 witness: principal u3 (no users row, hence not admin-flagged) gets 404
for the missing jammer 99 and 403 for jammer 1 owned via establishment 1 by
u1, on both variants. -/
theorem c3_witness :
    (Srv.patchJammerRoute env0 (some "Bearer tok3") 99 (some true) store1
        = (.err 404 "Jammer não encontrado.", store1) ∧
     APINode.patchJammer env0 (some "Bearer tok3") 99 (some true) store1
        = (.err 404 "Jammer não encontrado.", store1)) ∧
    (Srv.patchJammerRoute env0 (some "Bearer tok3") 1 (some true) store1
        = (.err 403 "Você não tem permissão para alterar este jammer.", store1) ∧
     APINode.patchJammer env0 (some "Bearer tok3") 1 (some true) store1
        = (.err 403 "Você não tem permissão para alterar este jammer.", store1)) :=
  ⟨(c3_patch_jammer_notfound_forbidden env0 "Bearer tok3" authU3 store1 99 true
      (by decide) (by decide) (by decide)).1 (by decide),
   (c3_patch_jammer_notfound_forbidden env0 "Bearer tok3" authU3 store1 1 true
      (by decide) (by decide) (by decide)).2 jam1 estab1
      (by decide) (by decide) (by decide) (by decide)⟩

/-! ### Helper lemmas about the delete and update store operations -/

theorem filter_not_filter_nil {α : Type} (p : α → Bool) (l : List α) :
    (l.filter (fun a => !(p a))).filter p = [] := by
  rw [List.filter_filter]
  have hfun : (fun a : α => p a && !(p a)) = fun _ : α => false := by
    funext a
    cases p a <;> simp
  rw [hfun, List.filter_false]

theorem filter_not_idem {α : Type} (p : α → Bool) (l : List α) :
    (l.filter (fun a => !(p a))).filter (fun a => !(p a))
      = l.filter (fun a => !(p a)) := by
  rw [List.filter_filter]
  have hfun : (fun a : α => !(p a) && !(p a)) = fun a : α => !(p a) := by
    funext a
    cases p a <;> simp
  rw [hfun]

theorem update_jammers_filter (jammerId : Nat) (b : Bool) (store : Store)
    (j : JammerRow)
    (hj : store.jammers.filter (fun j2 => j2.id == jammerId) = [j]) :
    (store.jammers.map (fun j2 =>
        if j2.id == jammerId then { j2 with estado_jammer := b } else j2)).filter
      (fun j2 => j2.id == jammerId) = [{ j with estado_jammer := b }] := by
  rw [List.filter_map]
  have hp : ((fun j2 : JammerRow => j2.id == jammerId) ∘ (fun j2 =>
      if j2.id == jammerId then { j2 with estado_jammer := b } else j2))
        = fun j2 : JammerRow => j2.id == jammerId := by
    funext j2
    by_cases hx : (j2.id == jammerId) = true <;> simp [Function.comp, hx]
  rw [hp, hj]
  have hpj : (j.id == jammerId) = true := by
    have hmem : j ∈ store.jammers.filter (fun j2 => j2.id == jammerId) := by
      rw [hj]; exact List.mem_singleton.mpr rfl
    exact (List.mem_filter.mp hmem).2
  simp [hpj]
  intro hc
  exact absurd (by simpa using hpj) hc

theorem update_jammers_idem (jammerId : Nat) (b : Bool) (l : List JammerRow) :
    (l.map (fun j2 =>
        if j2.id == jammerId then { j2 with estado_jammer := b } else j2)).map
      (fun j2 => if j2.id == jammerId then { j2 with estado_jammer := b } else j2)
      = l.map (fun j2 =>
          if j2.id == jammerId then { j2 with estado_jammer := b } else j2) := by
  rw [List.map_map]
  have hf : ((fun j2 : JammerRow =>
      if j2.id == jammerId then { j2 with estado_jammer := b } else j2) ∘ (fun j2 =>
      if j2.id == jammerId then { j2 with estado_jammer := b } else j2))
        = fun j2 : JammerRow =>
          if j2.id == jammerId then { j2 with estado_jammer := b } else j2 := by
    funext j2
    by_cases hx : (j2.id == jammerId) = true <;> simp [Function.comp, hx]
  rw [hf]

theorem patchJammerOwn_ok (jammerId : Nat) (b : Bool) (u : AuthUser)
    (store : Store) (j : JammerRow) (e : EstabRow)
    (hj : store.jammers.filter (fun j2 => j2.id == jammerId) = [j])
    (he : store.estabelecimentos.find?
        (fun e2 => e2.id == j.id_estabelecimento) = some e)
    (hown : e.user_id = u.id) :
    patchJammerOwn jammerId b u store
      = (RouteResult.ok 200 { j with estado_jammer := b },
         { store with jammers := store.jammers.map (fun j2 =>
            if j2.id == jammerId then { j2 with estado_jammer := b } else j2) }) := by
  simp [patchJammerOwn, hj, he, hown]

/-- C9: on either server variant, when the authenticated caller owns the
jammer through its establishment, PATCH /jammer/:jammerId with a state value
answers 200 with the updated row, and repeating the identical request leaves
the store exactly as after the first call and again succeeds with the same
200 response (the second call equals the first call's result pair). -/
theorem c9_patch_jammer_idempotent (env : Env) (h : String) (u : AuthUser)
    (store : Store) (jammerId : Nat) (b : Bool) (j : JammerRow) (e : EstabRow)
    (hne : h ≠ "") (htne : stripBearer h ≠ "")
    (hget : env.getUser (stripBearer h) = some u)
    (hj : store.jammers.filter (fun j2 => j2.id == jammerId) = [j])
    (he : store.estabelecimentos.find?
        (fun e2 => e2.id == j.id_estabelecimento) = some e)
    (hown : e.user_id = u.id) :
    (Srv.patchJammerRoute env (some h) jammerId (some b) store).1
      = RouteResult.ok 200 { j with estado_jammer := b } ∧
    Srv.patchJammerRoute env (some h) jammerId (some b)
        (Srv.patchJammerRoute env (some h) jammerId (some b) store).2
      = Srv.patchJammerRoute env (some h) jammerId (some b) store ∧
    APINode.patchJammer env (some h) jammerId (some b)
        (APINode.patchJammer env (some h) jammerId (some b) store).2
      = APINode.patchJammer env (some h) jammerId (some b) store := by
  have eS : ∀ s : Store, Srv.patchJammerRoute env (some h) jammerId (some b) s
      = patchJammerOwn jammerId b u s := by
    intro s
    simp [Srv.patchJammerRoute, Srv.authRoute, Srv.verificarAutenticacao,
      Srv.patchJammer, hne, hget]
  have eA : ∀ s : Store, APINode.patchJammer env (some h) jammerId (some b) s
      = patchJammerOwn jammerId b u s := by
    intro s
    simp [APINode.patchJammer, APINode.resolveToken, hne, htne, hget]
  have h1 := patchJammerOwn_ok jammerId b u store j e hj he hown
  have hj2 := update_jammers_filter jammerId b store j hj
  have h2 := patchJammerOwn_ok jammerId b u
    { store with jammers := store.jammers.map (fun j2 =>
        if j2.id == jammerId then { j2 with estado_jammer := b } else j2) }
    { j with estado_jammer := b } e hj2 he hown
  refine ⟨?_, ?_, ?_⟩
  · rw [eS, h1]
  · rw [eS, eS, h1]
    simp only [h2]
    rw [update_jammers_idem]
  · rw [eA, eA, h1]
    simp only [h2]
    rw [update_jammers_idem]

/-- C9 witness: owner u1 toggling jammer 1 to true twice on concrete fixtures. -/
theorem c9_witness :
    (Srv.patchJammerRoute env0 (some "Bearer tok1") 1 (some true) store1).1
      = RouteResult.ok 200 { jam1 with estado_jammer := true } ∧
    Srv.patchJammerRoute env0 (some "Bearer tok1") 1 (some true)
        (Srv.patchJammerRoute env0 (some "Bearer tok1") 1 (some true) store1).2
      = Srv.patchJammerRoute env0 (some "Bearer tok1") 1 (some true) store1 ∧
    APINode.patchJammer env0 (some "Bearer tok1") 1 (some true)
        (APINode.patchJammer env0 (some "Bearer tok1") 1 (some true) store1).2
      = APINode.patchJammer env0 (some "Bearer tok1") 1 (some true) store1 :=
  c9_patch_jammer_idempotent env0 "Bearer tok1" authU1 store1 1 true jam1 estab1
    (by decide) (by decide) (by decide) (by decide) (by decide) (by decide)

/-- C10: PATCH /jammer/:jammerId never consults the admin flag: on either
server variant, an authenticated principal whose id differs from the jammer's
transitive owner is answered 403 with the store unchanged, with no hypothesis
on the users table at all — and the same outcome holds when the users table
is replaced by anything whatsoever. -/
theorem c10_patch_jammer_ignores_admin_flag (env : Env) (h : String)
    (u : AuthUser) (store : Store) (jammerId : Nat) (b : Bool)
    (j : JammerRow) (e : EstabRow)
    (hne : h ≠ "") (htne : stripBearer h ≠ "")
    (hget : env.getUser (stripBearer h) = some u)
    (hj : store.jammers.filter (fun j2 => j2.id == jammerId) = [j])
    (he : store.estabelecimentos.find?
        (fun e2 => e2.id == j.id_estabelecimento) = some e)
    (hown : e.user_id ≠ u.id) :
    Srv.patchJammerRoute env (some h) jammerId (some b) store
      = (.err 403 "Você não tem permissão para alterar este jammer.", store) ∧
    APINode.patchJammer env (some h) jammerId (some b) store
      = (.err 403 "Você não tem permissão para alterar este jammer.", store) ∧
    (∀ users2 : List UserRow,
      Srv.patchJammerRoute env (some h) jammerId (some b)
          { store with users := users2 }
        = (.err 403 "Você não tem permissão para alterar este jammer.",
           { store with users := users2 })) := by
  refine ⟨?_, ?_, ?_⟩
  · simp [Srv.patchJammerRoute, Srv.authRoute, Srv.verificarAutenticacao,
      Srv.patchJammer, patchJammerOwn, hne, hget, hj, he, hown]
  · simp [APINode.patchJammer, APINode.resolveToken, patchJammerOwn,
      hne, htne, hget, hj, he, hown]
  · intro users2
    simp [Srv.patchJammerRoute, Srv.authRoute, Srv.verificarAutenticacao,
      Srv.patchJammer, patchJammerOwn, hne, hget, hj, he, hown]

/-- C10 witness: admin-flagged u2 (see `rowU2`) patching u1's jammer 1 is
answered 403 on both variants, also with an empty users table. -/
theorem c10_witness :
    Srv.patchJammerRoute env0 (some "Bearer tok2") 1 (some true) store1
      = (.err 403 "Você não tem permissão para alterar este jammer.", store1) ∧
    APINode.patchJammer env0 (some "Bearer tok2") 1 (some true) store1
      = (.err 403 "Você não tem permissão para alterar este jammer.", store1) ∧
    Srv.patchJammerRoute env0 (some "Bearer tok2") 1 (some true)
        { store1 with users := [] }
      = (.err 403 "Você não tem permissão para alterar este jammer.",
         { store1 with users := [] }) := by
  have hmain := c10_patch_jammer_ignores_admin_flag env0 "Bearer tok2" authU2
    store1 1 true jam1 estab1 (by decide) (by decide) (by decide) (by decide)
    (by decide) (by decide)
  exact ⟨hmain.1, hmain.2.1, hmain.2.2 []⟩

/-- C8: an admin-flagged principal deleting establishment `eid` on either
server variant removes every jammer row with that `id_estabelecimento` and
the establishment row itself (the jammer delete runs first inside the
handler), answering 200 with the deleted row; repeating the request finds no
establishment row to delete, so the `.single()` on the establishment delete
fails with the PostgREST no-rows error (NotFound class) and the store is
left unchanged. -/
theorem c8_admin_delete_cascade (env : Env) (h : String) (u : AuthUser)
    (r : UserRow) (store : Store) (eid : Nat) (e : EstabRow)
    (hne : h ≠ "") (htne : stripBearer h ≠ "")
    (hget : env.getUser (stripBearer h) = some u)
    (hrow : store.users.filter (fun w => w.id == u.id) = [r])
    (hadmin : r.is_admin = true)
    (hestab : store.estabelecimentos.filter (fun e2 => e2.id == eid) = [e]) :
    Srv.adminDeleteEstabelecimentoRoute env (some h) eid store
      = (RouteResult.ok 200 e,
         { store with
            jammers := store.jammers.filter
              (fun jm => !(jm.id_estabelecimento == eid)),
            estabelecimentos := store.estabelecimentos.filter
              (fun e2 => !(e2.id == eid)) }) ∧
    APINode.adminDeleteEstabelecimentoRoute env (some h) eid store
      = (RouteResult.ok 200 e,
         { store with
            jammers := store.jammers.filter
              (fun jm => !(jm.id_estabelecimento == eid)),
            estabelecimentos := store.estabelecimentos.filter
              (fun e2 => !(e2.id == eid)) }) ∧
    Srv.adminDeleteEstabelecimentoRoute env (some h) eid
        { store with
           jammers := store.jammers.filter
             (fun jm => !(jm.id_estabelecimento == eid)),
           estabelecimentos := store.estabelecimentos.filter
             (fun e2 => !(e2.id == eid)) }
      = (RouteResult.err 400 pgrst116,
         { store with
            jammers := store.jammers.filter
              (fun jm => !(jm.id_estabelecimento == eid)),
            estabelecimentos := store.estabelecimentos.filter
              (fun e2 => !(e2.id == eid)) }) ∧
    APINode.adminDeleteEstabelecimentoRoute env (some h) eid
        { store with
           jammers := store.jammers.filter
             (fun jm => !(jm.id_estabelecimento == eid)),
           estabelecimentos := store.estabelecimentos.filter
             (fun e2 => !(e2.id == eid)) }
      = (RouteResult.err 400 pgrst116,
         { store with
            jammers := store.jammers.filter
              (fun jm => !(jm.id_estabelecimento == eid)),
            estabelecimentos := store.estabelecimentos.filter
              (fun e2 => !(e2.id == eid)) }) := by
  have hdel1 : deleteEstabelecimento eid store
      = (RouteResult.ok 200 e,
         { store with
            jammers := store.jammers.filter
              (fun jm => !(jm.id_estabelecimento == eid)),
            estabelecimentos := store.estabelecimentos.filter
              (fun e2 => !(e2.id == eid)) }) := by
    simp [deleteEstabelecimento, hestab]
  have hdel2 : deleteEstabelecimento eid
      { store with
         jammers := store.jammers.filter
           (fun jm => !(jm.id_estabelecimento == eid)),
         estabelecimentos := store.estabelecimentos.filter
           (fun e2 => !(e2.id == eid)) }
      = (RouteResult.err 400 pgrst116,
         { store with
            jammers := store.jammers.filter
              (fun jm => !(jm.id_estabelecimento == eid)),
            estabelecimentos := store.estabelecimentos.filter
              (fun e2 => !(e2.id == eid)) }) := by
    simp only [deleteEstabelecimento]
    rw [show ({ store with
         jammers := store.jammers.filter
           (fun jm => !(jm.id_estabelecimento == eid)),
         estabelecimentos := store.estabelecimentos.filter
           (fun e2 => !(e2.id == eid)) } : Store).jammers.filter
             (fun jm => !(jm.id_estabelecimento == eid))
           = store.jammers.filter (fun jm => !(jm.id_estabelecimento == eid))
         from filter_not_idem _ _]
    rw [show ({ store with
         jammers := store.jammers.filter
           (fun jm => !(jm.id_estabelecimento == eid)),
         estabelecimentos := store.estabelecimentos.filter
           (fun e2 => !(e2.id == eid)) } : Store).estabelecimentos.filter
             (fun e2 => e2.id == eid) = []
         from filter_not_filter_nil _ _]
  have hmwS : ∀ s : Store, s.users = store.users →
      Srv.adminDeleteEstabelecimentoRoute env (some h) eid s
        = deleteEstabelecimento eid s := by
    intro s hs
    simp [Srv.adminDeleteEstabelecimentoRoute, Srv.adminRoute, Srv.verificarAdmin,
      hne, hget, selectSingle, hs, hrow, hadmin]
  have hmwA : ∀ s : Store, s.users = store.users →
      APINode.adminDeleteEstabelecimentoRoute env (some h) eid s
        = deleteEstabelecimento eid s := by
    intro s hs
    simp [APINode.adminDeleteEstabelecimentoRoute, APINode.adminRoute,
      APINode.verificarAdmin, hne, htne, hget, selectSingle, hs, hrow, hadmin]
  refine ⟨?_, ?_, ?_, ?_⟩
  · rw [hmwS store rfl, hdel1]
  · rw [hmwA store rfl, hdel1]
  · rw [hmwS { store with
        jammers := store.jammers.filter
          (fun jm => !(jm.id_estabelecimento == eid)),
        estabelecimentos := store.estabelecimentos.filter
          (fun e2 => !(e2.id == eid)) } rfl, hdel2]
  · rw [hmwA { store with
        jammers := store.jammers.filter
          (fun jm => !(jm.id_estabelecimento == eid)),
        estabelecimentos := store.estabelecimentos.filter
          (fun e2 => !(e2.id == eid)) } rfl, hdel2]

/-- C8 witness: admin u2 deleting establishment 7 from `store7` removes both
jammers 71 and 72 and the establishment row; deleting again fails with the
no-rows error. -/
theorem c8_witness :
    Srv.adminDeleteEstabelecimentoRoute env0 (some "Bearer tok2") 7 store7
      = (RouteResult.ok 200 estab7, ⟨[rowU1, rowU2], [estab1], [jam1]⟩) ∧
    Srv.adminDeleteEstabelecimentoRoute env0 (some "Bearer tok2") 7
        ⟨[rowU1, rowU2], [estab1], [jam1]⟩
      = (RouteResult.err 400 pgrst116, ⟨[rowU1, rowU2], [estab1], [jam1]⟩) := by
  have hmain := c8_admin_delete_cascade env0 "Bearer tok2" authU2 rowU2 store7 7
    estab7 (by decide) (by decide) (by decide) (by decide) (by decide) (by decide)
  refine ⟨?_, ?_⟩
  · rw [hmain.1]
    decide
  · have h3 := hmain.2.2.1
    rw [show ({ store7 with
         jammers := store7.jammers.filter
           (fun jm => !(jm.id_estabelecimento == 7)),
         estabelecimentos := store7.estabelecimentos.filter
           (fun e2 => !(e2.id == 7)) } : Store)
         = ⟨[rowU1, rowU2], [estab1], [jam1]⟩ from by decide] at h3
    exact h3
